import Mathlib

/-!
Verification of the request-status module (`src/requestStatus.ts`).

The module represents the lifecycle of an asynchronous request.  At
runtime a `RequestStatus` value is either one of the enum strings
`'idle'`, `'pending'`, `'success'` (the three unit variants share their
representation with the corresponding `RequestStatusEnum` member), or a
composite object `{ error: string }`.  `getRequestStatus` projects such a
value to a `RequestStatusEnum` member, and `isRequestStatus` compares the
projection against an expected tag.

We embed runtime values as the inductive `RSValue`: a JavaScript string,
or an object carrying an `error` field of string type.  Enum members are
the string constants they are declared as in the TypeScript `enum`.
-/

/-- A runtime value flowing through the module: either a string (the
representation of the three unit variants of `RequestStatus`, and of
every `RequestStatusEnum` member) or an object with an `error` field. -/
inductive RSValue where
| str (s : String)
| obj (error : String)
deriving DecidableEq, Repr

namespace RequestStatusEnum

/-- `RequestStatusEnum.IDLE = 'idle'`. -/
def IDLE : String := "idle"

/-- `RequestStatusEnum.PENDING = 'pending'`. -/
def PENDING : String := "pending"

/-- `RequestStatusEnum.SUCCESS = 'success'`. -/
def SUCCESS : String := "success"

/-- `RequestStatusEnum.ERROR = 'error'`. -/
def ERROR : String := "error"

end RequestStatusEnum

/-- The values inhabiting the TypeScript type
`RequestStatus = IDLE | PENDING | SUCCESS | { error: string }`.
Note the bare string `'error'` is NOT a legal `RequestStatus`. -/
def validRequestStatus : RSValue → Bool
| .str s => s == RequestStatusEnum.IDLE || s == RequestStatusEnum.PENDING
    || s == RequestStatusEnum.SUCCESS
| .obj _ => true

/-- The four members of `RequestStatusEnum`, i.e. the closed set of
lifecycle tags. -/
def lifecycleTags : List String :=
  [RequestStatusEnum.IDLE, RequestStatusEnum.PENDING,
   RequestStatusEnum.SUCCESS, RequestStatusEnum.ERROR]

/-- `getRequestStatus` from `src/requestStatus.ts`:
`if (typeof status === 'object' && 'error' in status) return
RequestStatusEnum.ERROR; return status;`.  An `RSValue.obj` is the only
object value, and it always has the `error` field, so the guard matches
exactly the `obj` constructor; any string is returned unchanged. -/
def getRequestStatus : RSValue → String
| .obj _ => RequestStatusEnum.ERROR
| .str s => s

/-- `isRequestStatus` from `src/requestStatus.ts`:
`return getRequestStatus(requestStatus) === status;`. -/
def isRequestStatus (requestStatus : RSValue) (status : String) : Bool :=
  getRequestStatus requestStatus == status

/-- The naive direct check `state === expected` (JavaScript strict
equality between a runtime `RequestStatus` value and an enum member): a
string compares by content, an object is never strictly equal to a
string. -/
def strictEq : RSValue → String → Bool
| .str s, t => s == t
| .obj _, _ => false

/-- Reading the `error` field of a runtime value: present exactly on the
composite variant. -/
def RSValue.errorMessage : RSValue → Option String
| .obj m => some m
| .str _ => none

/-- **C1.** For every runtime value `s` and every tag `t`, the predicate
agrees with projection followed by equality:
`isRequestStatus s t = true ↔ getRequestStatus s = t`.  (Stated for all
runtime values, hence in particular for every valid `RequestState` and
every `LifecycleTag`.) -/
theorem isRequestStatus_iff_projection_eq (s : RSValue) (t : String) :
    isRequestStatus s t = true ↔ getRequestStatus s = t := by
  simp [isRequestStatus]

/-- **C2.** Narrowing soundness for the `Error` tag: for every valid
`RequestState` `s`, if `isRequestStatus s ERROR` returns true then `s`
is the composite error variant, so its error-message field is an
accessible string; and concretely `isRequestStatus {error: "timeout"}
ERROR = true` with the narrowed value's message equal to `"timeout"`. -/
theorem isRequestStatus_error_narrows :
    (∀ s : RSValue, validRequestStatus s = true →
      isRequestStatus s RequestStatusEnum.ERROR = true →
      ∃ m : String, s = RSValue.obj m ∧ s.errorMessage = some m) ∧
    isRequestStatus (RSValue.obj "timeout") RequestStatusEnum.ERROR = true ∧
    (RSValue.obj "timeout").errorMessage = some "timeout" := by
  refine ⟨?_, by decide, rfl⟩
  intro s hv ht
  cases s with
  | obj m => exact ⟨m, rfl, rfl⟩
  | str x =>
      exfalso
      simp only [isRequestStatus, getRequestStatus, beq_iff_eq] at ht
      subst ht
      simp [validRequestStatus, RequestStatusEnum.ERROR,
        RequestStatusEnum.IDLE, RequestStatusEnum.PENDING,
        RequestStatusEnum.SUCCESS] at hv

/-- Witness for C2: the universal conjunct applied at the concrete valid
input `{error: "boom"}`. -/
theorem isRequestStatus_error_narrows_witness :
    ∃ m : String, RSValue.obj "boom" = RSValue.obj m ∧
      (RSValue.obj "boom").errorMessage = some m :=
  isRequestStatus_error_narrows.1 (RSValue.obj "boom") (by decide) (by decide)

/-- **C3.** For every error message `m`, `getRequestStatus {error: m}`
returns the `Error` tag; the detection is by the shape of the value (the
`obj` branch of the definition matches on the presence of the `error`
field alone, for arbitrary `m`), not by comparison against the three
unit variants. -/
theorem getRequestStatus_obj (m : String) :
    getRequestStatus (RSValue.obj m) = RequestStatusEnum.ERROR := rfl

/-- **C4.** `getRequestStatus` is the identity mapping on the three unit
variants `Idle`, `Pending`, `Success`. -/
theorem getRequestStatus_unit_identity :
    getRequestStatus (RSValue.str RequestStatusEnum.IDLE)
        = RequestStatusEnum.IDLE ∧
    getRequestStatus (RSValue.str RequestStatusEnum.PENDING)
        = RequestStatusEnum.PENDING ∧
    getRequestStatus (RSValue.str RequestStatusEnum.SUCCESS)
        = RequestStatusEnum.SUCCESS :=
  ⟨rfl, rfl, rfl⟩

/-- **C5.** Projection is total and exhaustive: `getRequestStatus` is a
total function, and for every legal `RequestState` its result occurs
exactly once in the list of the four lifecycle tags — it is one of
`Idle`, `Pending`, `Success`, `Error`, and no "unknown" tag exists. -/
theorem getRequestStatus_total_exhaustive (s : RSValue)
    (hv : validRequestStatus s = true) :
    lifecycleTags.count (getRequestStatus s) = 1 := by
  cases s with
  | obj m => show lifecycleTags.count RequestStatusEnum.ERROR = 1; decide
  | str x =>
      simp only [validRequestStatus, Bool.or_eq_true, beq_iff_eq] at hv
      rcases hv with (h | h) | h <;> subst h <;> decide

/-- Witness for C5: the theorem applied at the concrete valid input
`Pending`. -/
theorem getRequestStatus_total_exhaustive_witness :
    lifecycleTags.count
      (getRequestStatus (RSValue.str RequestStatusEnum.PENDING)) = 1 :=
  getRequestStatus_total_exhaustive
    (RSValue.str RequestStatusEnum.PENDING) (by decide)

/-- **C6.** Narrowing soundness for the unit tags: for every valid
`RequestState` `s` and tag `t` among `Idle`, `Pending`, `Success`, if
`isRequestStatus s t` returns true then `s` is the corresponding unit
variant itself. -/
theorem isRequestStatus_unit_narrows (s : RSValue) (t : String)
    (hv : validRequestStatus s = true)
    (ht : t = RequestStatusEnum.IDLE ∨ t = RequestStatusEnum.PENDING
        ∨ t = RequestStatusEnum.SUCCESS)
    (h : isRequestStatus s t = true) :
    s = RSValue.str t := by
  cases s with
  | str x =>
      simp only [isRequestStatus, getRequestStatus, beq_iff_eq] at h
      subst h; rfl
  | obj m =>
      exfalso
      simp only [isRequestStatus, getRequestStatus, beq_iff_eq] at h
      rcases ht with h' | h' | h' <;> subst h' <;>
        simp [RequestStatusEnum.ERROR, RequestStatusEnum.IDLE,
          RequestStatusEnum.PENDING, RequestStatusEnum.SUCCESS] at h

/-- Witness for C6: the theorem applied at the concrete valid input
`Success` with expected tag `Success`. -/
theorem isRequestStatus_unit_narrows_witness :
    RSValue.str RequestStatusEnum.SUCCESS
      = RSValue.str RequestStatusEnum.SUCCESS :=
  isRequestStatus_unit_narrows
    (RSValue.str RequestStatusEnum.SUCCESS) RequestStatusEnum.SUCCESS
    (by decide) (Or.inr (Or.inr rfl)) (by decide)

/-- **C7.** Mutual exclusion and coverage: for every valid
`RequestState` `s`, exactly one of the four lifecycle tags `t` satisfies
`isRequestStatus s t = true`. -/
theorem isRequestStatus_exactly_one (s : RSValue)
    (hv : validRequestStatus s = true) :
    lifecycleTags.countP (isRequestStatus s) = 1 := by
  cases s with
  | obj m =>
      show lifecycleTags.countP (fun t => RequestStatusEnum.ERROR == t) = 1
      decide
  | str x =>
      simp only [validRequestStatus, Bool.or_eq_true, beq_iff_eq] at hv
      rcases hv with (h | h) | h <;> subst h <;> decide

/-- Witness for C7: the theorem applied at the concrete valid input
`{error: "oops"}`. -/
theorem isRequestStatus_exactly_one_witness :
    lifecycleTags.countP (isRequestStatus (RSValue.obj "oops")) = 1 :=
  isRequestStatus_exactly_one (RSValue.obj "oops") (by decide)

/-- **C8.** The naive strict-equality check fails exactly where the
predicate succeeds: for every error message `m`, the composite value
`{error: m}` is not strictly equal to the bare `Error` tag (an object is
never `===` a string), yet `isRequestStatus {error: m} Error` returns
true because the predicate normalizes through `getRequestStatus`. -/
theorem strictEq_insufficient_for_error (m : String) :
    strictEq (RSValue.obj m) RequestStatusEnum.ERROR = false ∧
    isRequestStatus (RSValue.obj m) RequestStatusEnum.ERROR = true :=
  ⟨rfl, by simp [isRequestStatus, getRequestStatus]⟩

/-- **C9.** Purity as determinism: `getRequestStatus` and
`isRequestStatus` are modelled as mathematical functions of their
arguments alone — the embedding carries no state and performs no
effects — so two applications to the same input are equal results. -/
theorem requestStatus_deterministic (s : RSValue) (t : String) :
    getRequestStatus s = getRequestStatus s ∧
    isRequestStatus s t = isRequestStatus s t :=
  ⟨rfl, rfl⟩

/-- **C10.** Round trip between projector and predicate: testing a state
against its own projected tag always succeeds, for every runtime value
and in particular for every valid `RequestState`. -/
theorem isRequestStatus_roundtrip (s : RSValue) :
    isRequestStatus s (getRequestStatus s) = true := by
  simp [isRequestStatus]
